import Mathlib

/-!
A shallow embedding of the Bejin rainfall reporting script (`app_beijin.py`).

The script is one linear pipeline: a guarded load block (`try/except` around
`pd.read_csv`, column normalization and `pd.to_datetime`), an unguarded
aggregation section (`groupby` sums, mean, anomaly, monthly averages,
`idxmax`), a per-year classification, a threshold-selected agricultural
insight, and a three-sheet spreadsheet payload (`create_excel_report`).

Rainfall quantities are modelled as exact rationals (the spec treats the
floating-point arithmetic of the implementation as an approximation of the
exact values).  Library failures (`pd.read_csv` raising, `KeyError` on a
missing column, `pd.to_datetime` rejecting a cell, `idxmax` on an empty
series) are modelled as explicit error values; a date cell is modelled by
the result of its parse (`Option Date`), since the textual date formats are
library behaviour, not code of this repository.
-/

namespace Beijin

/-- One parsed calendar date; only the year and month components are
consumed downstream (`df['date'].dt.year`, `df['date'].dt.month`). -/
structure Date where
  year : Int
  month : Nat
deriving DecidableEq, Repr

/-- One observation row after loading: the derived `year` and `month`
columns plus the `rainfall` value (millimetres). -/
structure Row where
  year : Int
  month : Nat
  rainfall : ℚ
deriving DecidableEq, Repr

/-- The whitespace characters `str.strip()` removes (space, tab, newline,
carriage return). -/
def isWsChar (c : Char) : Bool :=
  c == Char.ofNat 32 || c == Char.ofNat 9 || c == Char.ofNat 10 || c == Char.ofNat 13

/-- Strip leading and trailing whitespace from a character list. -/
def trimChars (l : List Char) : List Char :=
  ((l.dropWhile isWsChar).reverse.dropWhile isWsChar).reverse

/-- Lower-case one character (column headers are ASCII). -/
def lowerChar (c : Char) : Char :=
  if Char.ofNat 65 ≤ c && c ≤ Char.ofNat 90 then Char.ofNat (c.toNat + 32) else c

/-- Column-name normalization: `df.columns.str.strip().str.lower()`. -/
def normalizeName (s : String) : String :=
  String.mk ((trimChars s.data).map lowerChar)

/-- A raw CSV table as produced by `pd.read_csv`.  `dateCells` holds the
parse result of each cell of the (normalized) `date` column when that
column exists; `none` models a cell that `pd.to_datetime` rejects.
`rainCells` holds the numeric cells of the precipitation column when one
exists. -/
structure RawCSV where
  columns : List String
  dateCells : List (Option Date)
  rainCells : List ℚ
deriving DecidableEq, Repr

/-- The normalized column names of a raw table. -/
def normCols (t : RawCSV) : List String := t.columns.map normalizeName

/-- Whether `df['date']` succeeds: a column normalizing to `date` exists. -/
def hasDateCol (t : RawCSV) : Bool := (normCols t).contains "date"

/-- The column names after the conditional rename
(`precipitation_mm` → `rainfall`, else `precip` → `rainfall`). -/
def colsAfterRename (t : RawCSV) : List String :=
  let cs := normCols t
  if cs.contains "precipitation_mm" then
    cs.map (fun c => if c = "precipitation_mm" then "rainfall" else c)
  else if cs.contains "precip" then
    cs.map (fun c => if c = "precip" then "rainfall" else c)
  else cs

/-- Whether, after the rename, a `rainfall` column exists for the
aggregation stage (`df.groupby('year')['rainfall']`) to consume. -/
def hasRainfallCol (t : RawCSV) : Bool := (colsAfterRename t).contains "rainfall"

/-- The data frame surviving the load block: parsed dates (from which
`year` and `month` are derived) and, when the table has a precipitation
column, its numeric cells. -/
structure Frame where
  dates : List Date
  rain? : Option (List ℚ)
deriving DecidableEq, Repr

/-- `pd.to_datetime` over a whole column: all cells must parse, one bad
cell fails the whole coercion. -/
def allSome {α : Type} : List (Option α) → Option (List α)
  | [] => some []
  | none :: _ => none
  | some x :: rest => (allSome rest).map (x :: ·)

/-- The hard-coded source path of the dataset. -/
def file_path : String := "beijing_2018_2024_weather.csv"

/-- The ways the guarded load block can raise. -/
inductive LoadFailure where
  | readFailure
  | missingDateColumn
  | badDate
deriving DecidableEq, Repr

/-- The text of the underlying library exception interpolated into the
user-facing message (`Details: {e}`); the exact pandas wording is library
behaviour, so a representative text stands for each failure class. -/
def causeText : LoadFailure → String
  | .readFailure => "FileNotFoundError"
  | .missingDateColumn => "KeyError: date"
  | .badDate => "DateParseError"

/-- A single apostrophe, as a string. -/
def quoteMark : String := String.mk [Char.ofNat 39]

/-- The single user-facing load error message
(`st.error(f"ERROR: ... Details: {e}")`). -/
def errorMessage (cause : String) : String :=
  "ERROR: Could not load the CSV file. Please ensure " ++ quoteMark ++
    file_path ++ quoteMark ++ " is in your repository. Details: " ++ cause

/-- The guarded load block (lines 49–67): read the file, normalize and
rename columns, coerce the date column.  `none` as input models
`pd.read_csv` raising (file missing or unreadable). -/
def loadStage : Option RawCSV → Except LoadFailure Frame
  | none => .error .readFailure
  | some t =>
    if hasDateCol t then
      match allSome t.dateCells with
      | some ds => .ok ⟨ds, if hasRainfallCol t then some t.rainCells else none⟩
      | none => .error .badDate
    else .error .missingDateColumn

/-- Rows of the loaded frame: each parsed date paired with its rainfall
cell. -/
def rowsOf (dates : List Date) (rain : List ℚ) : List Row :=
  List.zipWith (fun d r => ⟨d.year, d.month, r⟩) dates rain

/-- Insert a key into a strictly ascending list, keeping it strictly
ascending; used to model the sorted distinct index of a pandas `groupby`. -/
def insertUniq {α : Type} [LinearOrder α] (x : α) : List α → List α
  | [] => [x]
  | y :: ys =>
    if x < y then x :: y :: ys
    else if x = y then y :: ys
    else y :: insertUniq x ys

/-- The sorted distinct values of a list: the index of a pandas `groupby`
(keys ascending, each distinct key once). -/
def sortedDedup {α : Type} [LinearOrder α] (l : List α) : List α :=
  l.foldr insertUniq []

/-- The distinct years present, ascending: the index of
`df.groupby('year')`. -/
def yearsOf (rows : List Row) : List Int := sortedDedup (rows.map (·.year))

/-- The distinct months present, ascending: the index of
`df.groupby('month')`. -/
def monthsOf (rows : List Row) : List Nat := sortedDedup (rows.map (·.month))

/-- One group's sum: `df.groupby('year')['rainfall'].sum()` at key `y`. -/
def yearly_total (rows : List Row) (y : Int) : ℚ :=
  ((rows.filter (fun r => r.year == y)).map (·.rainfall)).sum

/-- The yearly series `yearly_rain` (line 70): ascending years paired with
their rainfall totals. -/
def yearly_rain (rows : List Row) : List (Int × ℚ) :=
  (yearsOf rows).map (fun y => (y, yearly_total rows y))

/-- `avg_rain = yearly_rain.mean()` (line 71): sum of the yearly series
over its length. -/
def avg_rain (rows : List Row) : ℚ :=
  ((yearly_rain rows).map (·.2)).sum / (yearly_rain rows).length

/-- `anomaly = yearly_rain - avg_rain` (line 72), at year `y`. -/
def anomaly (rows : List Row) (y : Int) : ℚ :=
  yearly_total rows y - avg_rain rows

/-- One group's sum: `df.groupby('month')['rainfall'].sum()` at key `m`. -/
def monthly_total (rows : List Row) (m : Nat) : ℚ :=
  ((rows.filter (fun r => r.month == m)).map (·.rainfall)).sum

/-- Maximum of a list of integers, `none` when empty
(`df['year'].max()`). -/
def maxInt : List Int → Option Int
  | [] => none
  | x :: xs =>
    match maxInt xs with
    | none => some x
    | some m => some (max x m)

/-- Minimum of a list of integers, `none` when empty
(`df['year'].min()`). -/
def minInt : List Int → Option Int
  | [] => none
  | x :: xs =>
    match minInt xs with
    | none => some x
    | some m => some (min x m)

/-- The presumed year span `df['year'].max() - df['year'].min() + 1`
(line 75).  On an empty frame pandas yields NaN; the value is modelled as 0
there, and the pipeline errors out before it could be observed. -/
def year_span (rows : List Row) : ℚ :=
  match maxInt (rows.map (·.year)), minInt (rows.map (·.year)) with
  | some hi, some lo => ((hi - lo + 1 : Int) : ℚ)
  | _, _ => 0

/-- The monthly series `monthly_avg` (line 75): ascending months present,
each paired with its total divided by the year span.  Months with no rows
do not appear in the series. -/
def monthly_avg (rows : List Row) : List (Nat × ℚ) :=
  (monthsOf rows).map (fun m => (m, monthly_total rows m / year_span rows))

/-- `Series.idxmax` together with its value: the first entry carrying the
maximum value, `none` on an empty series (where pandas raises). -/
def argmaxAux : List (Nat × ℚ) → Option (Nat × ℚ)
  | [] => none
  | p :: rest =>
    match argmaxAux rest with
    | none => some p
    | some q => if q.2 > p.2 then some q else some p

/-- `wettest_month_idx = monthly_avg.idxmax()` (line 76); `none` models
the `ValueError` pandas raises on an empty series. -/
def wettest_month_idx (rows : List Row) : Option Nat :=
  (argmaxAux (monthly_avg rows)).map (·.1)

/-- `calendar.month_name[i]`. -/
def month_name : Nat → String
  | 1 => "January"
  | 2 => "February"
  | 3 => "March"
  | 4 => "April"
  | 5 => "May"
  | 6 => "June"
  | 7 => "July"
  | 8 => "August"
  | 9 => "September"
  | 10 => "October"
  | 11 => "November"
  | 12 => "December"
  | _ => ""

/-- The per-year classification (lines 93–95): strict 15% band around the
multi-year average, `Normal` by default. -/
def status (anom_val avg : ℚ) : String :=
  if anom_val > avg * 0.15 then "Wet (Above Average)"
  else if anom_val < -(avg * 0.15) then "Dry (Below Average)"
  else "Normal"

/-- Round a rational to the nearest integer, ties to even: the rounding of
the fixed-point rounding of Python string formatting. -/
def roundHalfEven (q : ℚ) : Int :=
  let f := ⌊q⌋
  if q - f < 1 / 2 then f
  else if q - f > 1 / 2 then f + 1
  else if f % 2 = 0 then f else f + 1

/-- Two-digit zero padding for the fractional part. -/
def pad2 (n : Nat) : String :=
  if n < 10 then "0" ++ toString n else toString n

/-- The Python formatting `f"{x:.2f}"`: the value rendered with exactly two decimal
places. -/
def format2 (q : ℚ) : String :=
  let n := roundHalfEven (q * 100)
  (if n < 0 then "-" else "") ++ toString (n.natAbs / 100) ++ "." ++ pad2 (n.natAbs % 100)

/-- One row of the on-screen yearly table (`summary_data`, lines 97–101):
the year, the 2-decimal rainfall string, the status label. -/
structure YearRow where
  year : Int
  rainfall : String
  status : String
deriving DecidableEq, Repr

/-- The on-screen yearly table (lines 89–104): one row per year of
`yearly_rain`, rainfall formatted `f"{rain:.2f}"`, status from the
classification band. -/
def summary_data (rows : List Row) : List YearRow :=
  (yearly_rain rows).map (fun p =>
    ⟨p.1, format2 p.2, status (anomaly rows p.1) (avg_rain rows)⟩)

/-- `wet_months = monthly_avg[monthly_avg > 100].count()` (line 110). -/
def wet_months (rows : List Row) : Nat :=
  ((monthly_avg rows).filter (fun p => decide (p.2 > 100))).length

/-- The Favorable recommendation text (line 113). -/
def excellent_text : String :=
  "Excellent Condition: Suitable for long-cycle crops like Rice, as the rainy season is extended."

/-- The Moderate recommendation text (line 116). -/
def moderate_text : String :=
  "Moderate Condition: Suitable for fast-growing crops like Maize and Beans (Short cycle) due to average rainfall duration."

/-- The Dry-risk recommendation text (line 119). -/
def caution_text : String :=
  "CAUTION: Dry area. High drought risk requires planting drought-resistant crops (Cassava, Sorghum)."

/-- The insight selection (lines 112–120): thresholds 5 and 3 on the count
of wet months. -/
def insight_text (w : Nat) : String :=
  if w ≥ 5 then excellent_text
  else if w ≥ 3 then moderate_text
  else caution_text

/-- The suffix of a character list strictly after its last closing
parenthesis. -/
def afterLastClose (l : List Char) : List Char :=
  (l.reverse.takeWhile (fun c => c != Char.ofNat 41)).reverse

/-- Core of `re.sub(r' \(.*\)', '', s)`: scan for a space followed by an
opening parenthesis; when some closing parenthesis follows, the greedy
`.*` consumes through the last one and the whole match is deleted (the
remainder holds no further closing parenthesis, so no further match). -/
def stripCore : List Char → List Char
  | [] => []
  | c :: rest =>
    if c = Char.ofNat 32 then
      match rest with
      | c2 :: rest2 =>
        if c2 = Char.ofNat 40 then
          if rest2.contains (Char.ofNat 41) then afterLastClose rest2
          else c :: stripCore rest
        else c :: stripCore rest
      | [] => [c]
    else c :: stripCore rest

/-- `Series.str.replace(r' \(.*\)', '', regex=True)` on one cell: the
parenthetical qualifier (with its leading space) removed. -/
def stripParen (s : String) : String := String.mk (stripCore s.data)

/-- One sheet of the spreadsheet payload. -/
inductive Cell where
  | str (s : String)
  | int (n : Int)
  | num (q : ℚ)
deriving DecidableEq, Repr

/-- A sheet of the workbook: its name, its header row, its data rows. -/
structure Sheet where
  name : String
  header : List String
  rows : List (List Cell)
deriving DecidableEq, Repr

/-- `create_excel_report` (lines 9–39): the in-memory workbook with its
three sheets in fixed order. -/
def create_excel_report (yearly_data : List YearRow) (monthly_data : List (Nat × ℚ))
    (avg_rainfall : ℚ) (wet_month : String) (insight : String) : List Sheet :=
  [⟨"1_Yearly_Trends",
    ["Year", "Total Rainfall (mm)", "Status"],
    yearly_data.map (fun r => [Cell.int r.year, Cell.str r.rainfall, Cell.str (stripParen r.status)])⟩,
   ⟨"2_Monthly_Seasonality",
    ["Month Index", "Month Name", "Average Rainfall (mm)"],
    monthly_data.map (fun p => [Cell.int (p.1 : Int), Cell.str (month_name p.1), Cell.num p.2])⟩,
   ⟨"3_Key_Insights",
    ["Metric", "Value"],
    [[Cell.str "7-Year Average Rainfall", Cell.str (format2 avg_rainfall ++ " mm")],
     [Cell.str "Wettest Month", Cell.str wet_month],
     [Cell.str "Main Recommendation", Cell.str insight]]⟩]

/-- The workbook the script exports for a given row set (lines 151–157):
`create_excel_report` applied to the yearly table, the monthly series, the
multi-year average, the name of the wettest month, and the insight text. -/
def reportOf (rows : List Row) (wname : String) : List Sheet :=
  create_excel_report (summary_data rows) (monthly_avg rows) (avg_rain rows)
    wname (insight_text (wet_months rows))

/-- Everything one successful render shows: metrics, the yearly table, the
insight, and the downloadable workbook. -/
structure Output where
  avg_metric : ℚ
  wettest_name : String
  table : List YearRow
  insight : String
  report : List Sheet
deriving DecidableEq, Repr

/-- An exception raised after the guarded load block: uncaught. -/
inductive CalcError where
  | keyErrorRainfall
  | emptyIdxmax
deriving DecidableEq, Repr

/-- The unguarded computation section (lines 70–164): raises `KeyError`
when there is no `rainfall` column, raises at `idxmax` when the frame is
empty, else produces the full render. -/
def calcStage (f : Frame) : Except CalcError Output :=
  match f.rain? with
  | none => .error .keyErrorRainfall
  | some rain =>
    let rows := rowsOf f.dates rain
    match wettest_month_idx rows with
    | none => .error .emptyIdxmax
    | some w =>
      .ok ⟨avg_rain rows, month_name w, summary_data rows,
        insight_text (wet_months rows), reportOf rows (month_name w)⟩

/-- How one render of the whole script ends: the single caught load error
(`st.error` then `st.stop`), an uncaught exception, or the full output. -/
inductive RenderResult where
  | loadError (msg : String)
  | uncaught (e : CalcError)
  | rendered (out : Output)
deriving DecidableEq, Repr

/-- The whole script, one render: the guarded load, then the unguarded
computation and report. -/
def pipeline (file : Option RawCSV) : RenderResult :=
  match loadStage file with
  | .error f => .loadError (errorMessage (causeText f))
  | .ok frame =>
    match calcStage frame with
    | .error e => .uncaught e
    | .ok out => .rendered out

/-- Whether a render ended in the caught, user-facing load error. -/
def isLoadError : RenderResult → Bool
  | .loadError _ => true
  | _ => false

/-- Whether a render produced the table, charts and download button. -/
def isRendered : RenderResult → Bool
  | .rendered _ => true
  | _ => false

/-- The single-row example dataset of the spec: `{date: 2020-06-01,
rainfall: 50}`. -/
def ex1 : List Row := [⟨2020, 6, 50⟩]

/-- A dataset where two months tie exactly for the maximum average. -/
def exTie : List Row := [⟨2020, 4, 30⟩, ⟨2020, 1, 30⟩]

/-- A raw table with a valid date column but no precipitation column. -/
def csv_no_rain : RawCSV := ⟨["date", "temp"], [some ⟨2020, 6⟩], []⟩

/-- A raw table with no date column. -/
def csv_no_date : RawCSV := ⟨["precip"], [], [50]⟩

/-- A raw table whose date column has an unparseable cell. -/
def csv_bad_date : RawCSV := ⟨["date", "precip"], [none], [50]⟩

/-- A raw table with both required columns and zero data rows. -/
def csv_empty : RawCSV := ⟨["date", "precipitation_mm"], [], []⟩

/-- A fully valid single-row raw table. -/
def csv_ok : RawCSV := ⟨["Date ", "PRECIPITATION_MM"], [some ⟨2020, 6⟩], [50]⟩

/-! ### Properties of the sorted distinct index (`sortedDedup`) -/

theorem mem_insertUniq {α : Type} [LinearOrder α] (x a : α) (l : List α) :
    a ∈ insertUniq x l ↔ a = x ∨ a ∈ l := by
  induction l with
  | nil => simp [insertUniq]
  | cons y ys ih =>
    simp only [insertUniq]
    split_ifs with h1 h2
    · simp [List.mem_cons]
    · subst h2
      simp [List.mem_cons]
    · simp only [List.mem_cons, ih]
      tauto

theorem pairwise_insertUniq {α : Type} [LinearOrder α] (x : α) (l : List α)
    (h : l.Pairwise (· < ·)) : (insertUniq x l).Pairwise (· < ·) := by
  induction l with
  | nil => simp [insertUniq]
  | cons y ys ih =>
    rw [List.pairwise_cons] at h
    simp only [insertUniq]
    split_ifs with h1 h2
    · refine List.Pairwise.cons ?_ (List.Pairwise.cons h.1 h.2)
      intro b hb
      rcases List.mem_cons.mp hb with rfl | hb
      · exact h1
      · exact lt_trans h1 (h.1 b hb)
    · exact List.Pairwise.cons h.1 h.2
    · have hyx : y < x := lt_of_le_of_ne (not_lt.mp h1) (fun e => h2 e.symm)
      refine List.Pairwise.cons ?_ (ih h.2)
      intro b hb
      rcases (mem_insertUniq x b ys).mp hb with rfl | hb
      · exact hyx
      · exact h.1 b hb

theorem mem_sortedDedup {α : Type} [LinearOrder α] (a : α) (l : List α) :
    a ∈ sortedDedup l ↔ a ∈ l := by
  induction l with
  | nil => simp [sortedDedup]
  | cons x xs ih =>
    show a ∈ insertUniq x (sortedDedup xs) ↔ _
    rw [mem_insertUniq, ih]
    simp [List.mem_cons]

theorem pairwise_sortedDedup {α : Type} [LinearOrder α] (l : List α) :
    (sortedDedup l).Pairwise (· < ·) := by
  induction l with
  | nil => exact List.Pairwise.nil
  | cons x xs ih => exact pairwise_insertUniq x (sortedDedup xs) ih

theorem nodup_sortedDedup {α : Type} [LinearOrder α] (l : List α) :
    (sortedDedup l).Nodup :=
  (pairwise_sortedDedup l).imp (fun h => ne_of_lt h)

/-! ### Properties of `idxmax` (`argmaxAux`) -/

theorem argmaxAux_eq_none {l : List (Nat × ℚ)} :
    argmaxAux l = none ↔ l = [] := by
  cases l with
  | nil => simp [argmaxAux]
  | cons p rest =>
    cases h' : argmaxAux rest with
    | none => simp [argmaxAux, h']
    | some q =>
      simp only [argmaxAux, h']
      split <;> simp

theorem argmaxAux_mem {l : List (Nat × ℚ)} {p : Nat × ℚ}
    (h : argmaxAux l = some p) : p ∈ l := by
  induction l generalizing p with
  | nil => simp [argmaxAux] at h
  | cons a rest ih =>
    cases h' : argmaxAux rest with
    | none =>
      simp only [argmaxAux, h', Option.some.injEq] at h
      exact h ▸ List.mem_cons_self a rest
    | some r =>
      simp only [argmaxAux, h'] at h
      split at h
      · simp only [Option.some.injEq] at h
        exact List.mem_cons_of_mem a (h ▸ ih h')
      · simp only [Option.some.injEq] at h
        exact h ▸ List.mem_cons_self a rest

theorem argmaxAux_le {l : List (Nat × ℚ)} {p : Nat × ℚ}
    (h : argmaxAux l = some p) : ∀ q ∈ l, q.2 ≤ p.2 := by
  induction l generalizing p with
  | nil => simp
  | cons a rest ih =>
    cases h' : argmaxAux rest with
    | none =>
      simp only [argmaxAux, h', Option.some.injEq] at h
      subst h
      intro q hq
      rcases List.mem_cons.mp hq with rfl | hq
      · exact le_refl _
      · rw [argmaxAux_eq_none.mp h'] at hq
        simp at hq
    | some r =>
      simp only [argmaxAux, h'] at h
      split at h
      · rename_i hgt
        simp only [Option.some.injEq] at h
        subst h
        intro q hq
        rcases List.mem_cons.mp hq with rfl | hq
        · exact le_of_lt hgt
        · exact ih h' q hq
      · rename_i hgt
        simp only [Option.some.injEq] at h
        subst h
        intro q hq
        rcases List.mem_cons.mp hq with rfl | hq
        · exact le_refl _
        · exact le_trans (ih h' q hq) (not_lt.mp hgt)

theorem argmaxAux_first {l : List (Nat × ℚ)}
    (hl : l.Pairwise (fun a b => a.1 < b.1)) {p : Nat × ℚ}
    (h : argmaxAux l = some p) : ∀ q ∈ l, q.2 = p.2 → p.1 ≤ q.1 := by
  induction l generalizing p with
  | nil => simp
  | cons a rest ih =>
    rw [List.pairwise_cons] at hl
    cases h' : argmaxAux rest with
    | none =>
      simp only [argmaxAux, h', Option.some.injEq] at h
      subst h
      intro q hq _
      rcases List.mem_cons.mp hq with rfl | hq
      · exact le_refl _
      · rw [argmaxAux_eq_none.mp h'] at hq
        simp at hq
    | some r =>
      simp only [argmaxAux, h'] at h
      split at h
      · rename_i hgt
        simp only [Option.some.injEq] at h
        subst h
        intro q hq hq2
        rcases List.mem_cons.mp hq with rfl | hq
        · exact absurd (hq2 ▸ hgt) (lt_irrefl _)
        · exact ih hl.2 h' q hq hq2
      · simp only [Option.some.injEq] at h
        subst h
        intro q hq _
        rcases List.mem_cons.mp hq with rfl | hq
        · exact le_refl _
        · exact le_of_lt (hl.1 q hq)

/-! ### Sum lemmas for the grouped totals -/

theorem sum_map_zero_q {α : Type} (l : List α) :
    (l.map (fun _ => (0 : ℚ))).sum = 0 := by
  induction l <;> simp [*]

theorem sum_map_add_q {α : Type} (l : List α) (f g : α → ℚ) :
    (l.map (fun a => f a + g a)).sum = (l.map f).sum + (l.map g).sum := by
  induction l with
  | nil => simp
  | cons x xs ih =>
    simp only [List.map_cons, List.sum_cons, ih]
    ring

theorem sum_map_sub_const_q {α : Type} (l : List α) (f : α → ℚ) (c : ℚ) :
    (l.map (fun a => f a - c)).sum = (l.map f).sum - l.length * c := by
  induction l with
  | nil => simp
  | cons x xs ih =>
    simp only [List.map_cons, List.sum_cons, ih, List.length_cons]
    push_cast
    ring

theorem sum_ite_not_mem (ys : List Int) (c : Int) (v : ℚ) (hc : c ∉ ys) :
    (ys.map (fun y => if c = y then v else 0)).sum = 0 := by
  induction ys with
  | nil => simp
  | cons y t ih =>
    have hcy : c ≠ y := fun e => hc (e ▸ List.mem_cons_self y t)
    have hct : c ∉ t := fun m => hc (List.mem_cons_of_mem y m)
    simp [hcy, ih hct]

theorem sum_ite_mem (ys : List Int) (hnd : ys.Nodup) (c : Int) (v : ℚ)
    (hc : c ∈ ys) : (ys.map (fun y => if c = y then v else 0)).sum = v := by
  induction ys with
  | nil => simp at hc
  | cons y t ih =>
    rw [List.nodup_cons] at hnd
    by_cases hcy : c = y
    · subst hcy
      simp [sum_ite_not_mem t c v hnd.1]
    · have hct : c ∈ t := by
        rcases List.mem_cons.mp hc with rfl | m
        · exact absurd rfl hcy
        · exact m
      simp [hcy, ih hnd.2 hct]

theorem yearly_total_nil (y : Int) : yearly_total [] y = 0 := rfl

theorem yearly_total_cons (r : Row) (rest : List Row) (y : Int) :
    yearly_total (r :: rest) y =
      (if r.year = y then r.rainfall else 0) + yearly_total rest y := by
  by_cases h : r.year = y <;> simp [yearly_total, List.filter_cons, h]

theorem sum_yearly_total (rows : List Row) (ys : List Int) (hnd : ys.Nodup)
    (hcov : ∀ r ∈ rows, r.year ∈ ys) :
    (ys.map (fun y => yearly_total rows y)).sum = (rows.map (·.rainfall)).sum := by
  induction rows with
  | nil =>
    simp only [yearly_total_nil, List.map_nil, List.sum_nil]
    exact sum_map_zero_q ys
  | cons r rest ih =>
    have hr : r.year ∈ ys := hcov r (List.mem_cons_self r rest)
    have hrest : ∀ x ∈ rest, x.year ∈ ys :=
      fun x hx => hcov x (List.mem_cons_of_mem r hx)
    simp only [yearly_total_cons]
    rw [sum_map_add_q ys (fun y => if r.year = y then r.rainfall else 0)
        (fun y => yearly_total rest y),
      sum_ite_mem ys hnd r.year r.rainfall hr, ih hrest]
    simp

/-! ### Bridges between the series and their index -/

theorem yearly_rain_snd (rows : List Row) :
    (yearly_rain rows).map (·.2) = (yearsOf rows).map (fun y => yearly_total rows y) := by
  simp [yearly_rain, List.map_map, Function.comp]

theorem length_yearly_rain (rows : List Row) :
    (yearly_rain rows).length = (yearsOf rows).length := by
  simp [yearly_rain]

theorem year_mem_yearsOf {rows : List Row} {r : Row} (hr : r ∈ rows) :
    r.year ∈ yearsOf rows :=
  (mem_sortedDedup _ _).mpr (List.mem_map_of_mem _ hr)

theorem month_mem_monthsOf {rows : List Row} {r : Row} (hr : r ∈ rows) :
    r.month ∈ monthsOf rows :=
  (mem_sortedDedup _ _).mpr (List.mem_map_of_mem _ hr)

theorem yearsOf_ne_nil {rows : List Row} (h : rows ≠ []) : yearsOf rows ≠ [] := by
  cases rows with
  | nil => exact absurd rfl h
  | cons r rest =>
    intro he
    have hm := year_mem_yearsOf (List.mem_cons_self r rest)
    rw [he] at hm
    simp at hm

theorem monthsOf_ne_nil {rows : List Row} (h : rows ≠ []) : monthsOf rows ≠ [] := by
  cases rows with
  | nil => exact absurd rfl h
  | cons r rest =>
    intro he
    have hm := month_mem_monthsOf (List.mem_cons_self r rest)
    rw [he] at hm
    simp at hm

theorem avg_rain_eq (rows : List Row) :
    avg_rain rows =
      ((yearsOf rows).map (fun y => yearly_total rows y)).sum / (yearsOf rows).length := by
  rw [avg_rain, yearly_rain_snd, length_yearly_rain]

/-- Claim C8: summing the yearly totals over the distinct years present
recovers the sum of the whole rainfall column — grouping by year is a
partition of the rows. -/
theorem yearly_totals_partition (rows : List Row) :
    ((yearly_rain rows).map (·.2)).sum = (rows.map (·.rainfall)).sum := by
  rw [yearly_rain_snd]
  exact sum_yearly_total rows (yearsOf rows) (nodup_sortedDedup _)
    (fun r hr => year_mem_yearsOf hr)

/-- Claim C7: for every non-empty dataset, `anomaly` is the yearly total
minus the multi-year average, and the anomalies over all years present sum
to exactly zero. -/
theorem anomaly_sum_zero (rows : List Row) (h : rows ≠ []) :
    (∀ y : Int, anomaly rows y = yearly_total rows y - avg_rain rows) ∧
    ((yearsOf rows).map (fun y => anomaly rows y)).sum = 0 := by
  refine ⟨fun _ => rfl, ?_⟩
  have hlen : ((yearsOf rows).length : ℚ) ≠ 0 := by
    have := yearsOf_ne_nil h
    simpa [List.length_eq_zero] using this
  simp only [anomaly]
  rw [sum_map_sub_const_q (yearsOf rows) (fun y => yearly_total rows y) (avg_rain rows),
    avg_rain_eq]
  field_simp

/-- Witness for C7: on the single-row example dataset the anomalies sum to
zero. -/
theorem anomaly_sum_zero_witness :
    ex1 ≠ [] ∧ ((yearsOf ex1).map (fun y => anomaly ex1 y)).sum = 0 :=
  ⟨by decide, (anomaly_sum_zero ex1 (by decide)).2⟩

/-! ### Classification -/

theorem yearly_total_nonneg (rows : List Row) (hnn : ∀ r ∈ rows, 0 ≤ r.rainfall)
    (y : Int) : 0 ≤ yearly_total rows y := by
  apply List.sum_nonneg
  intro x hx
  obtain ⟨r, hr, rfl⟩ := List.mem_map.mp hx
  exact hnn r (List.mem_of_mem_filter hr)

theorem avg_rain_nonneg (rows : List Row) (hnn : ∀ r ∈ rows, 0 ≤ r.rainfall) :
    0 ≤ avg_rain rows := by
  rw [avg_rain_eq]
  apply div_nonneg _ (Nat.cast_nonneg _)
  apply List.sum_nonneg
  intro x hx
  obtain ⟨z, _, rfl⟩ := List.mem_map.mp hx
  exact yearly_total_nonneg rows hnn z

theorem status_cases (a v : ℚ) (hv : 0 ≤ v) :
    (status a v = "Wet (Above Average)" ↔ a > v * 0.15) ∧
    (status a v = "Dry (Below Average)" ↔ a < -(v * 0.15)) ∧
    (status a v = "Normal" ↔ ¬ a > v * 0.15 ∧ ¬ a < -(v * 0.15)) := by
  have hband : -(v * 0.15) ≤ v * 0.15 := by nlinarith
  unfold status
  split_ifs with h1 h2
  · refine ⟨by simp [h1], ?_, ?_⟩
    · constructor
      · intro hs
        exact absurd hs (by decide)
      · intro hlt
        exact absurd hlt (by linarith)
    · constructor
      · intro hs
        exact absurd hs (by decide)
      · intro hn
        exact absurd h1 hn.1
  · refine ⟨?_, by simp [h2], ?_⟩
    · constructor
      · intro hs
        exact absurd hs (by decide)
      · intro hgt
        exact absurd hgt h1
    · constructor
      · intro hs
        exact absurd hs (by decide)
      · intro hn
        exact absurd h2 hn.2
  · refine ⟨?_, ?_, by simp [h1, h2]⟩
    · constructor
      · intro hs
        exact absurd hs (by decide)
      · intro hgt
        exact absurd hgt h1
    · constructor
      · intro hs
        exact absurd hs (by decide)
      · intro hlt
        exact absurd hlt h2

/-- Claim C1: for every year present in a (non-negative-rainfall) dataset,
the yearly table carries the status computed from the anomaly with the
strict 15% band: Wet iff the anomaly strictly exceeds 15% of the
multi-year average, Dry iff it is strictly below minus 15%, Normal
otherwise — in particular at either exact band edge — and exactly one of
the three labels is assigned. -/
theorem classification_band_strict (rows : List Row) (y : Int)
    (hy : y ∈ yearsOf rows) (hnn : ∀ r ∈ rows, 0 ≤ r.rainfall) :
    (∃ t ∈ summary_data rows, t.year = y ∧
      t.status = status (anomaly rows y) (avg_rain rows)) ∧
    anomaly rows y = yearly_total rows y - avg_rain rows ∧
    (status (anomaly rows y) (avg_rain rows) = "Wet (Above Average)" ↔
      anomaly rows y > avg_rain rows * 0.15) ∧
    (status (anomaly rows y) (avg_rain rows) = "Dry (Below Average)" ↔
      anomaly rows y < -(avg_rain rows * 0.15)) ∧
    (status (anomaly rows y) (avg_rain rows) = "Normal" ↔
      ¬ anomaly rows y > avg_rain rows * 0.15 ∧
      ¬ anomaly rows y < -(avg_rain rows * 0.15)) ∧
    (anomaly rows y = avg_rain rows * 0.15 →
      status (anomaly rows y) (avg_rain rows) = "Normal") ∧
    (anomaly rows y = -(avg_rain rows * 0.15) →
      status (anomaly rows y) (avg_rain rows) = "Normal") := by
  have hv := avg_rain_nonneg rows hnn
  have hsc := status_cases (anomaly rows y) (avg_rain rows) hv
  refine ⟨⟨⟨y, format2 (yearly_total rows y), status (anomaly rows y) (avg_rain rows)⟩,
    List.mem_map_of_mem _ (List.mem_map_of_mem _ hy), rfl, rfl⟩,
    rfl, hsc.1, hsc.2.1, hsc.2.2, ?_, ?_⟩
  · intro he
    refine hsc.2.2.mpr ⟨?_, ?_⟩
    · rw [he]
      exact lt_irrefl _
    · rw [he]
      intro hcon
      nlinarith
  · intro he
    refine hsc.2.2.mpr ⟨?_, ?_⟩
    · rw [he]
      intro hcon
      nlinarith
    · rw [he]
      exact lt_irrefl _

/-- Witness for C1: on the single-row example dataset the year 2020 has
anomaly zero and is classified Normal. -/
theorem classification_band_strict_witness :
    ((2020 : Int) ∈ yearsOf ex1 ∧ ∀ r ∈ ex1, 0 ≤ r.rainfall) ∧
    status (anomaly ex1 2020) (avg_rain ex1) = "Normal" := by
  refine ⟨⟨by decide, by decide⟩, ?_⟩
  have h := (classification_band_strict ex1 2020 (by decide) (by decide)).2.2.2.2.1
  have e1 : anomaly ex1 2020 = 0 := by
    norm_num [anomaly, yearly_total, avg_rain, yearly_rain, yearsOf, sortedDedup,
      insertUniq, ex1]
  have e2 : avg_rain ex1 = 50 := by
    norm_num [avg_rain, yearly_rain, yearly_total, yearsOf, sortedDedup, insertUniq, ex1]
  refine h.mpr ?_
  rw [e1, e2]
  norm_num

/-! ### Insight selection -/

theorem length_filter_map {α β : Type} (l : List α) (f : α → β) (p : β → Bool) :
    ((l.map f).filter p).length = (l.filter (fun a => p (f a))).length := by
  induction l with
  | nil => simp
  | cons a t ih =>
    simp only [List.map_cons, List.filter_cons]
    cases p (f a) <;> simp [ih]

/-- Claim C2: the insight is selected by counting months whose monthly
average strictly exceeds 100 mm; at least five wet months give the
Favorable (rice) text, three or four give the Moderate (short-cycle) text,
fewer than three give the Dry-risk text, and the three texts are pairwise
distinct, so exactly one recommendation is produced per render. -/
theorem insight_threshold_selection (rows : List Row) :
    wet_months rows =
      ((monthsOf rows).filter
        (fun m => decide (monthly_total rows m / year_span rows > 100))).length ∧
    (insight_text (wet_months rows) = excellent_text ↔ 5 ≤ wet_months rows) ∧
    (insight_text (wet_months rows) = moderate_text ↔
      3 ≤ wet_months rows ∧ wet_months rows < 5) ∧
    (insight_text (wet_months rows) = caution_text ↔ wet_months rows < 3) ∧
    excellent_text ≠ moderate_text ∧ excellent_text ≠ caution_text ∧
    moderate_text ≠ caution_text := by
  have d1 : excellent_text ≠ moderate_text := by decide
  have d2 : excellent_text ≠ caution_text := by decide
  have d3 : moderate_text ≠ caution_text := by decide
  refine ⟨?_, ?_, ?_, ?_, d1, d2, d3⟩
  · rw [wet_months, monthly_avg,
      length_filter_map (monthsOf rows)
        (fun m => (m, monthly_total rows m / year_span rows))
        (fun p => decide (p.2 > 100))]
  · by_cases h5 : 5 ≤ wet_months rows
    · simp [insight_text, h5]
    · by_cases h3 : 3 ≤ wet_months rows <;> simp [insight_text, h5, h3, d1.symm, d2.symm]
  · by_cases h5 : 5 ≤ wet_months rows
    · simp [insight_text, h5, d1, Nat.lt_iff_add_one_le]
    · by_cases h3 : 3 ≤ wet_months rows
      · simp [insight_text, h5, h3]
        omega
      · simp [insight_text, h5, h3, d3.symm]
  · by_cases h5 : 5 ≤ wet_months rows
    · simp [insight_text, h5, d2]
      omega
    · by_cases h3 : 3 ≤ wet_months rows
      · simp [insight_text, h5, h3, d3]
      · simp [insight_text, h5, h3]
        omega

/-! ### Wettest month -/

theorem mem_monthly_avg {rows : List Row} {p : Nat × ℚ}
    (hp : p ∈ monthly_avg rows) :
    p.1 ∈ monthsOf rows ∧ p.2 = monthly_total rows p.1 / year_span rows := by
  obtain ⟨m, hm, he⟩ := List.mem_map.mp hp
  rw [← he]
  exact ⟨hm, rfl⟩

theorem pairwise_monthly_avg (rows : List Row) :
    (monthly_avg rows).Pairwise (fun a b => a.1 < b.1) := by
  rw [monthly_avg, List.pairwise_map]
  exact pairwise_sortedDedup _

theorem monthly_avg_ne_nil {rows : List Row} (h : rows ≠ []) :
    monthly_avg rows ≠ [] := by
  rw [monthly_avg]
  simp only [ne_eq, List.map_eq_nil_iff]
  exact monthsOf_ne_nil h

/-- Claim C5: for a non-empty dataset `idxmax` returns a month of the
dataset whose average is maximal over the monthly profile, and on an exact
tie the lowest month index wins. -/
theorem wettest_month_first_argmax (rows : List Row) (h : rows ≠ []) :
    ∃ w, wettest_month_idx rows = some w ∧ w ∈ monthsOf rows ∧
      (∀ p ∈ monthly_avg rows, p.2 ≤ monthly_total rows w / year_span rows) ∧
      (∀ p ∈ monthly_avg rows, p.2 = monthly_total rows w / year_span rows →
        w ≤ p.1) := by
  obtain ⟨q, hq⟩ : ∃ q, argmaxAux (monthly_avg rows) = some q := by
    cases hq' : argmaxAux (monthly_avg rows) with
    | none => exact absurd (argmaxAux_eq_none.mp hq') (monthly_avg_ne_nil h)
    | some q => exact ⟨q, rfl⟩
  have hqm := mem_monthly_avg (argmaxAux_mem hq)
  refine ⟨q.1, by simp [wettest_month_idx, hq], hqm.1, ?_, ?_⟩
  · intro p hp
    rw [← hqm.2]
    exact argmaxAux_le hq p hp
  · intro p hp hp2
    rw [← hqm.2] at hp2
    exact argmaxAux_first (pairwise_monthly_avg rows) hq p hp hp2

/-- Witness for C5: on a dataset where January and April tie exactly,
`idxmax` selects January (the lower month index). -/
theorem wettest_month_first_argmax_witness :
    exTie ≠ [] ∧ wettest_month_idx exTie = some 1 ∧
    ∃ w, wettest_month_idx exTie = some w ∧ w ∈ monthsOf exTie := by
  refine ⟨by decide, ?_, ?_⟩
  · norm_num [wettest_month_idx, argmaxAux, monthly_avg, monthsOf, sortedDedup,
      insertUniq, monthly_total, year_span, maxInt, minInt, exTie]
  · obtain ⟨w, h1, h2, _, _⟩ := wettest_month_first_argmax exTie (by decide)
    exact ⟨w, h1, h2⟩

/-! ### Monthly profile -/

/-- Counterexample to C3: on the single-row example dataset of the spec itself the
monthly profile holds only June — a month with no rows does not appear
with value zero, and the Monthly Seasonality sheet has one data row, not
twelve. -/
theorem monthly_profile_omits_absent_months :
    monthly_avg ex1 = [(6, 50)] ∧
    ¬ (1, (0 : ℚ)) ∈ monthly_avg ex1 ∧
    (reportOf ex1 "June").map (fun s => s.rows.length) = [1, 1, 3] := by
  have h1 : monthly_avg ex1 = [(6, 50)] := by
    norm_num [monthly_avg, monthsOf, sortedDedup, insertUniq, monthly_total,
      year_span, maxInt, minInt, ex1]
  refine ⟨h1, ?_, ?_⟩
  · rw [h1]
    decide
  · simp [reportOf, create_excel_report, h1, summary_data, yearly_rain, yearsOf,
      sortedDedup, insertUniq, ex1]
    rw [show monthly_avg [(⟨2020, 6, 50⟩ : Row)] = [(6, 50)] from h1]
    simp

/-- Amended C3: `monthlyTotal(m)` sums the rainfall of the rows with month
`m` (zero when no row has month `m`), but the monthly profile — and with
it the Monthly Seasonality sheet — contains exactly the months present in
the dataset; absent months are omitted rather than listed with value
zero. -/
theorem monthly_profile_present_months (rows : List Row) (m : Nat) :
    ((m ∈ monthsOf rows) ↔ ∃ r ∈ rows, r.month = m) ∧
    (∀ p ∈ monthly_avg rows, p.1 = m →
      p.2 = monthly_total rows m / year_span rows) ∧
    (m ∉ monthsOf rows → ∀ p ∈ monthly_avg rows, p.1 ≠ m) ∧
    ((∀ r ∈ rows, r.month ≠ m) → monthly_total rows m = 0) ∧
    (∀ wname, ((reportOf rows wname).map (fun s => s.rows.length)).get? 1 =
      some (monthsOf rows).length) := by
  refine ⟨?_, ?_, ?_, ?_, ?_⟩
  · rw [monthsOf, mem_sortedDedup]
    exact List.mem_map
  · intro p hp he
    have := (mem_monthly_avg hp).2
    rw [← he]
    exact this
  · intro hm p hp he
    exact hm (he ▸ (mem_monthly_avg hp).1)
  · intro hall
    have : rows.filter (fun r => r.month == m) = [] := by
      rw [List.filter_eq_nil_iff]
      intro r hr
      simp [hall r hr]
    rw [monthly_total, this]
    simp
  · intro wname
    simp [reportOf, create_excel_report, monthly_avg]

/-- Witness for C3 (amended): month 1 is not in the profile of the single-row
example, so no profile entry carries index 1. -/
theorem monthly_profile_present_months_witness :
    (1 : Nat) ∉ monthsOf ex1 ∧ ∀ p ∈ monthly_avg ex1, p.1 ≠ 1 :=
  ⟨by decide, (monthly_profile_present_months ex1 1).2.2.1 (by decide)⟩

/-! ### Load failures -/

theorem string_append_assoc (a b c : String) : a ++ b ++ c = a ++ (b ++ c) := by
  cases a with
  | mk la =>
    cases b with
    | mk lb =>
      cases c with
      | mk lc =>
        show String.mk (la ++ lb ++ lc) = String.mk (la ++ (lb ++ lc))
        rw [List.append_assoc]

/-- Counterexample to C4: a table with a valid date column but no
precipitation column passes the guarded load block, and the failure
surfaces only as an uncaught `KeyError` at the yearly aggregation — it is
not caught at the top level and no friendly message is produced. -/
theorem missing_rainfall_not_caught :
    pipeline (some csv_no_rain) = RenderResult.uncaught CalcError.keyErrorRainfall ∧
    isLoadError (pipeline (some csv_no_rain)) = false ∧
    isRendered (pipeline (some csv_no_rain)) = false := by
  refine ⟨?_, ?_, ?_⟩ <;> decide

/-- Amended C4: a failure inside the load block — file missing or
unreadable, date column absent, or unparseable dates — is caught once at
the top level and surfaced as the single message containing the file name
and the underlying cause, and the pipeline stops; a missing rainfall
column, however, escapes the handler and raises an uncaught `KeyError` at
the yearly aggregation.  In every failure case no table, chart, or
download is produced. -/
theorem load_failure_surface_amended (t : RawCSV) :
    pipeline none = RenderResult.loadError (errorMessage (causeText LoadFailure.readFailure)) ∧
    (∀ c, ∃ pre post, errorMessage c = pre ++ (file_path ++ post) ∧
      ∃ head, errorMessage c = head ++ c) ∧
    (hasDateCol t = false →
      pipeline (some t) =
        RenderResult.loadError (errorMessage (causeText LoadFailure.missingDateColumn))) ∧
    (hasDateCol t = true → allSome t.dateCells = none →
      pipeline (some t) =
        RenderResult.loadError (errorMessage (causeText LoadFailure.badDate))) ∧
    (∀ ds, hasDateCol t = true → allSome t.dateCells = some ds →
      hasRainfallCol t = false →
      pipeline (some t) = RenderResult.uncaught CalcError.keyErrorRainfall) ∧
    (hasRainfallCol t = false → isRendered (pipeline (some t)) = false) ∧
    isRendered (pipeline none) = false := by
  refine ⟨rfl, ?_, ?_, ?_, ?_, ?_, rfl⟩
  · intro c
    refine ⟨"ERROR: Could not load the CSV file. Please ensure " ++ quoteMark,
      quoteMark ++ (" is in your repository. Details: " ++ c), ?_,
      "ERROR: Could not load the CSV file. Please ensure " ++ quoteMark ++
        file_path ++ quoteMark ++ " is in your repository. Details: ", rfl⟩
    simp [errorMessage, string_append_assoc]
  · intro hd
    simp [pipeline, loadStage, hd]
  · intro hd hn
    simp [pipeline, loadStage, hd, hn]
  · intro ds hd hn hr
    simp [pipeline, loadStage, calcStage, hd, hn, hr]
  · intro hr
    cases hd : hasDateCol t with
    | false => simp [pipeline, loadStage, hd, isRendered]
    | true =>
      cases hn : allSome t.dateCells with
      | none => simp [pipeline, loadStage, hd, hn, isRendered]
      | some ds => simp [pipeline, loadStage, calcStage, hd, hn, hr, isRendered]

/-- Witness for C4 (amended): a table with no date column is caught and
surfaced as the single load error message. -/
theorem load_failure_surface_amended_witness :
    hasDateCol csv_no_date = false ∧
    pipeline (some csv_no_date) =
      RenderResult.loadError (errorMessage (causeText LoadFailure.missingDateColumn)) :=
  ⟨by decide, (load_failure_surface_amended csv_no_date).2.2.1 (by decide)⟩

/-! ### Spreadsheet payload -/

/-- Claim C6: the workbook always holds exactly the three sheets in fixed
order with their fixed columns; the Yearly Trends rows carry the year, the
2-decimal rainfall string and the status with its parenthetical qualifier
stripped; and Key Insights has exactly the three rows with the 2-decimal
average plus unit suffix, the name of the wettest month, and the
recommendation. -/
theorem excel_report_three_sheets (yd : List YearRow) (md : List (Nat × ℚ))
    (a : ℚ) (w i : String) :
    (create_excel_report yd md a w i).map (fun s => s.name) =
      ["1_Yearly_Trends", "2_Monthly_Seasonality", "3_Key_Insights"] ∧
    (create_excel_report yd md a w i).length = 3 ∧
    (create_excel_report yd md a w i).map (fun s => s.header) =
      [["Year", "Total Rainfall (mm)", "Status"],
       ["Month Index", "Month Name", "Average Rainfall (mm)"],
       ["Metric", "Value"]] ∧
    ((create_excel_report yd md a w i).map (fun s => s.rows)).get? 0 =
      some (yd.map (fun r =>
        [Cell.int r.year, Cell.str r.rainfall, Cell.str (stripParen r.status)])) ∧
    stripParen "Wet (Above Average)" = "Wet" ∧
    stripParen "Dry (Below Average)" = "Dry" ∧
    stripParen "Normal" = "Normal" ∧
    ((create_excel_report yd md a w i).map (fun s => s.rows)).get? 2 =
      some [[Cell.str "7-Year Average Rainfall", Cell.str (format2 a ++ " mm")],
            [Cell.str "Wettest Month", Cell.str w],
            [Cell.str "Main Recommendation", Cell.str i]] :=
  ⟨rfl, rfl, rfl, rfl, by decide, by decide, by decide, rfl⟩

/-- Claim C9: for every year of the dataset, the 2-decimal rainfall string
of the on-screen yearly table is exactly the value exported in the Yearly
Trends sheet — both are the same formatting of the same yearly total, so
display rounding introduces no divergence between the two outputs. -/
theorem display_export_roundtrip (rows : List Row) (wname : String) (y : Int)
    (hy : y ∈ yearsOf rows) :
    ∃ d ∈ summary_data rows, d.year = y ∧
      d.rainfall = format2 (yearly_total rows y) ∧
      ∃ s, (reportOf rows wname).get? 0 = some s ∧
        [Cell.int y, Cell.str d.rainfall, Cell.str (stripParen d.status)] ∈ s.rows := by
  refine ⟨⟨y, format2 (yearly_total rows y), status (anomaly rows y) (avg_rain rows)⟩,
    List.mem_map_of_mem _ (List.mem_map_of_mem _ hy), rfl, rfl, _, rfl, ?_⟩
  exact List.mem_map_of_mem _ (List.mem_map_of_mem _ (List.mem_map_of_mem _ hy))

/-- Witness for C9: the round-trip property instantiated on the
single-row example dataset at year 2020. -/
theorem display_export_roundtrip_witness :
    (2020 : Int) ∈ yearsOf ex1 ∧
    ∃ d ∈ summary_data ex1, d.year = 2020 ∧
      d.rainfall = format2 (yearly_total ex1 2020) ∧
      ∃ s, (reportOf ex1 "June").get? 0 = some s ∧
        [Cell.int 2020, Cell.str d.rainfall, Cell.str (stripParen d.status)] ∈ s.rows :=
  ⟨by decide, display_export_roundtrip ex1 "June" 2020 (by decide)⟩

/-! ### Empty dataset -/

/-- Claim C10: on a structurally valid table with zero rows the load block
succeeds, and the unguarded aggregation stage fails (at the `idxmax` of
the empty monthly profile) with an error the load handler does not catch;
no report, chart, or download is produced.  Non-emptiness is an unstated
precondition of the downstream computation. -/
theorem empty_dataset_unguarded (t : RawCSV) (hd : hasDateCol t = true)
    (hr : hasRainfallCol t = true) (hc : t.dateCells = []) :
    pipeline (some t) = RenderResult.uncaught CalcError.emptyIdxmax ∧
    isLoadError (pipeline (some t)) = false ∧
    isRendered (pipeline (some t)) = false := by
  have h1 : pipeline (some t) = RenderResult.uncaught CalcError.emptyIdxmax := by
    simp [pipeline, loadStage, hd, hc, allSome, hr, calcStage, rowsOf,
      wettest_month_idx, monthly_avg, monthsOf, sortedDedup, argmaxAux]
  exact ⟨h1, by rw [h1]; rfl, by rw [h1]; rfl⟩

/-- Witness for C10: the concrete empty table with both required columns
reaches the uncaught `idxmax` error. -/
theorem empty_dataset_unguarded_witness :
    (hasDateCol csv_empty = true ∧ hasRainfallCol csv_empty = true ∧
      csv_empty.dateCells = []) ∧
    pipeline (some csv_empty) = RenderResult.uncaught CalcError.emptyIdxmax :=
  ⟨⟨by decide, by decide, rfl⟩,
    (empty_dataset_unguarded csv_empty (by decide) (by decide) rfl).1⟩

end Beijin
